import Mathlib

/-!
Verification of the graph-workflow tutorial `LanggraphExample.py` against its
specification. The node step functions, the routing condition and the concrete
graph wiring are embedded from the Python source. The graph-execution engine
(state merge, edge resolution, step-limited invoke) is supplied by the external
framework and is not part of the sources of this repository; it is modelled
from the Executor / State Container / Edge Table contracts of the specification.
-/

set_option autoImplicit false

/-- Simulated LLM output of node 2 (`extract_bank_channels`, source lines
49-54): channels, amount, currency and beneficiaries. -/
structure BankChannelsInfo where
  channels : String
  amount : String
  currency : String
  beneficiaries : List String
deriving DecidableEq, Repr

/-- State schema `ExchangeState` (source lines 18-22): `file_text` is a string,
`bank_channels_info` is a dict once extracted and initially `None`,
`modality` is `str | None`, `additional_info` is a modality-specific dict of
string fields or `None`. `Option` models the Python `None`. -/
structure ExchangeState where
  file_text : String
  bank_channels_info : Option BankChannelsInfo
  modality : Option String
  additional_info : Option (List (String × String))
deriving DecidableEq, Repr

/-- Node 1 `extract_file_content` (source lines 28-31): passes the state
through unchanged (`return state`). -/
def extract_file_content (state : ExchangeState) : ExchangeState :=
  state

/-- The simulated extraction result assigned by `extract_bank_channels`
(source lines 49-54). -/
def bankChannelsResult : BankChannelsInfo :=
  { channels := "Online Banking, Wire Transfer"
    amount := "10000"
    currency := "USD"
    beneficiaries := ["Beneficiary A", "Beneficiary B"] }

/-- Node 2 `extract_bank_channels` (source lines 39-56): builds a prompt from
`file_text` (discarded, the LLM call is simulated), then executes
`state["bank_channels_info"] = result` and returns the state. -/
def extract_bank_channels (state : ExchangeState) : ExchangeState :=
  { state with bank_channels_info := some bankChannelsResult }

/-- Node 3 `determine_modality` (source lines 64-75): the simulated LLM reply
is the fixed string `"advance payment"`; the body executes
`state["modality"] = modality` and returns the state, for every input. -/
def determine_modality (state : ExchangeState) : ExchangeState :=
  { state with modality := some "advance payment" }

/-- Node 4a `extract_advance_payment_info` (source lines 82-91): simulated
output `{"expected_shipment_date": "2025-04-15"}` assigned to
`state["additional_info"]`. -/
def extract_advance_payment_info (state : ExchangeState) : ExchangeState :=
  { state with additional_info := some [("expected_shipment_date", "2025-04-15")] }

/-- Node 4b `extract_declaration_import_info` (source lines 98-107): simulated
output `{"protocol": "ABC123", "declaration_value": "5000"}` assigned to
`state["additional_info"]`. -/
def extract_declaration_import_info (state : ExchangeState) : ExchangeState :=
  { state with additional_info := some [("protocol", "ABC123"), ("declaration_value", "5000")] }

/-- Node 4c `extract_services_info` (source lines 114-123): simulated output
`{"service_details": "Maintenance service contract details"}` assigned to
`state["additional_info"]`. -/
def extract_services_info (state : ExchangeState) : ExchangeState :=
  { state with additional_info := some [("service_details", "Maintenance service contract details")] }

/-- Char-list viewpoint of the Python `str.startswith`: the first list is an
initial segment of the second. -/
def startsWithChars : List Char → List Char → Bool
  | [], _ => true
  | _ :: _, [] => false
  | c :: cs, d :: ds => c = d && startsWithChars cs ds

/-- Char-list viewpoint of the Python substring test: `needle` occurs as a
contiguous run inside the second list. -/
def containsChars (needle : List Char) : List Char → Bool
  | [] => startsWithChars needle []
  | d :: ds => startsWithChars needle (d :: ds) || containsChars needle ds

/-- The Python `needle in hay` test on strings: contiguous substring containment. -/
def pyIn (needle hay : String) : Bool :=
  containsChars needle.data hay.data

/-- The Python `str.lower()` method restricted to ASCII, which is all this program
uses: lower-case every character. -/
def pyLower (s : String) : String :=
  String.mk (s.data.map Char.toLower)

/-- Python runtime exceptions that the embedded expressions can raise. -/
inductive PyErr
  | attributeError
deriving DecidableEq, Repr

/-- Routing condition `modality_condition` (source lines 133-143).
`state.get("modality", "")` returns the stored value whenever the key is
present, so a stored `None` is returned as `None` and `None.lower()` raises
`AttributeError`; the `""` default applies only to an absent key, and the
`ExchangeState` schema keeps the key present. On a string modality the body
lower-cases it and tests the three substrings in order, falling back to the
label `"unknown"`. -/
def modality_condition (state : ExchangeState) : Except PyErr String :=
  match state.modality with
  | some m =>
    let modality := pyLower m
    if pyIn "advance payment" modality then Except.ok "advance_payment"
    else if pyIn "import already arrived" modality then Except.ok "declaration_import"
    else if pyIn "service" modality then Except.ok "services"
    else Except.ok "unknown"
  | none => Except.error PyErr.attributeError

/-- The six node names registered by `build_exchange_graph`
(source lines 161-166). -/
inductive Node
  | extract_file_content
  | extract_bank_channels
  | determine_modality
  | extract_advance_payment_info
  | extract_declaration_import_info
  | extract_services_info
deriving DecidableEq, Repr

/-- Dispatch from a node name to its step function, exactly as registered by
`add_node` in `build_exchange_graph` (source lines 161-166). -/
def runNode : Node → ExchangeState → ExchangeState
  | Node.extract_file_content => extract_file_content
  | Node.extract_bank_channels => extract_bank_channels
  | Node.determine_modality => determine_modality
  | Node.extract_advance_payment_info => extract_advance_payment_info
  | Node.extract_declaration_import_info => extract_declaration_import_info
  | Node.extract_services_info => extract_services_info

/-- Contents of the state object held by the caller after a node body has run. Python
passes the state dict by reference; every assignment `state[k] = v` in a node
body updates that same dict in place, and each body ends with
`return state`, returning that same object. The object held by the caller therefore
holds exactly the returned state. -/
def inputAfterCall (n : Node) (s : ExchangeState) : ExchangeState :=
  runNode n s

/-- StateField names of the `ExchangeState` schema (source lines 18-22). -/
inductive StateField
  | file_text
  | bank_channels_info
  | modality
  | additional_info
deriving DecidableEq, Repr

/-- The declared state fields in schema order (source lines 18-22). -/
def stateKeys : List StateField :=
  [StateField.file_text, StateField.bank_channels_info, StateField.modality, StateField.additional_info]

/-- Keys of the mapping the step function of a node returns. Every node body ends
with `return state`, returning the whole state dict, so the returned keys are
all declared fields for every node. -/
def returnedKeys (_n : Node) : List StateField :=
  stateKeys

/-- Fields assigned (`state[f] = v`) in each node body, read off the source:
node 1 assigns nothing (lines 28-31), node 2 assigns `bank_channels_info`
(line 55), node 3 assigns `modality` (line 74), nodes 4a-4c assign
`additional_info` (lines 90, 106, 122). -/
def writtenFields : Node → List StateField
  | Node.extract_file_content => []
  | Node.extract_bank_channels => [StateField.bank_channels_info]
  | Node.determine_modality => [StateField.modality]
  | Node.extract_advance_payment_info => [StateField.additional_info]
  | Node.extract_declaration_import_info => [StateField.additional_info]
  | Node.extract_services_info => [StateField.additional_info]

/-- Sample file text from the usage example (source lines 202-207). -/
def sampleText : String :=
  "Customer File Content:\nThe customer has provided a remittance file. The transaction was processed via Online Banking and Wire Transfer. The amount of USD 10,000 was remitted to Beneficiary A and Beneficiary B. The operation is an import with advance payment; the expected shipment date is 2025-04-15. "

/-- Documented initial state (source lines 209-214): the sample text plus
`None` placeholders for the three extracted fields. -/
def initial_state : ExchangeState :=
  { file_text := sampleText
    bank_channels_info := none
    modality := none
    additional_info := none }

/-- Modelled from the spec: the partial update of the State Container (spec 3 and
4.1). A `PartialState` carries, for each declared field, either a new value or
nothing; the engine itself is part of the external framework and absent from
the sources of this repository. -/
structure PartialState where
  file_text : Option String := none
  bank_channels_info : Option (Option BankChannelsInfo) := none
  modality : Option (Option String) := none
  additional_info : Option (Option (List (String × String))) := none
deriving DecidableEq, Repr

/-- Modelled from the spec: `merge(current, partial)` of spec 4.1. Every field
of this schema has the default `replace` reducer (the source declares no
`append` reducer), so each field present in the partial overwrites the current
value and absent fields are carried over unchanged; the input is not mutated. -/
def merge (current : ExchangeState) (p : PartialState) : ExchangeState :=
  { file_text := p.file_text.getD current.file_text
    bank_channels_info := p.bank_channels_info.getD current.bank_channels_info
    modality := p.modality.getD current.modality
    additional_info := p.additional_info.getD current.additional_info }

/-- Modelled from the spec: the update denoted by the mapping a node returns. The
source nodes return the whole state dict, so the update mentions every field
with the returned value. -/
def fullUpdate (ret : ExchangeState) : PartialState :=
  { file_text := some ret.file_text
    bank_channels_info := some ret.bank_channels_info
    modality := some ret.modality
    additional_info := some ret.additional_info }

/-- Modelled from the spec: an edge destination — a node name or the terminal
marker `END` (spec 3, Edge). -/
inductive Dest
  | node (n : Node)
  | END
deriving DecidableEq, Repr

/-- Modelled from the spec: the outgoing transition of a node in the Edge Table
(spec 4.3) — one fixed edge, or one conditional edge holding a decision
function and a label-to-destination mapping. A decision function may raise a
Python exception, hence the `Except`. -/
inductive Outgoing
  | edge (d : Dest)
  | conditional (dec : ExchangeState → Except PyErr String) (labelToNode : List (String × Dest))

/-- Modelled from the spec: run-time errors of the Executor (spec 7):
`UnroutableBranchError` when a decision label has no destination,
`StepLimitExceededError` when the step bound is exhausted,
`NodeExecutionError` when embedded Python code raises, and a missing-edge
error for a node the Edge Table leaves dangling. -/
inductive RunError
  | unroutableBranchError (label : String)
  | stepLimitExceededError
  | nodeExecutionError (e : PyErr)
  | missingEdgeError (n : Node)
deriving DecidableEq, Repr

/-- Modelled from the spec: a compiled graph (spec 3) — the entry point plus
the frozen Edge Table, immutable and shared across invocations. -/
structure CompiledGraph where
  entry : Node
  edges : Node → Option Outgoing

/-- Modelled from the spec: lookup of a decision label in the
label-to-destination mapping of a conditional edge. -/
def lookupLabel (label : String) : List (String × Dest) → Option Dest
  | [] => none
  | (k, d) :: rest => if k = label then some d else lookupLabel label rest

/-- Modelled from the spec: resolution of a conditional edge (spec 4.3, 4.5).
The decision function runs on the given state; a label absent from the mapping
is the explicit `UnroutableBranchError`, never a silent default. -/
def resolveConditional (dec : ExchangeState → Except PyErr String)
    (labelToNode : List (String × Dest)) (s : ExchangeState) : Except RunError Dest :=
  match dec s with
  | Except.error e => Except.error (RunError.nodeExecutionError e)
  | Except.ok label =>
    match lookupLabel label labelToNode with
    | some d => Except.ok d
    | none => Except.error (RunError.unroutableBranchError label)

/-- Modelled from the spec: one Executor transition (spec 4.5). The current
node runs, its returned mapping is merged into the state, and the next
destination is read from the fixed edge or resolved by the decision function
applied to the post-merge state. -/
def stepOnce (g : CompiledGraph) (n : Node) (s : ExchangeState) :
    Except RunError (ExchangeState × Dest) :=
  let s2 := merge s (fullUpdate (runNode n s))
  match g.edges n with
  | none => Except.error (RunError.missingEdgeError n)
  | some (Outgoing.edge d) => Except.ok (s2, d)
  | some (Outgoing.conditional dec map) =>
    match resolveConditional dec map s2 with
    | Except.error e => Except.error e
    | Except.ok d => Except.ok (s2, d)

/-- Modelled from the spec: the step-limited Executor driver loop
(spec 4.5). The fuel counts remaining transitions; exhausting it raises
`StepLimitExceededError`. The returned list records the visited nodes in
order. -/
def invokeAux (g : CompiledGraph) : Nat → Node → ExchangeState →
    Except RunError (ExchangeState × List Node)
  | 0, _, _ => Except.error RunError.stepLimitExceededError
  | fuel + 1, n, s =>
    match stepOnce g n s with
    | Except.error e => Except.error e
    | Except.ok (s2, Dest.END) => Except.ok (s2, [n])
    | Except.ok (s2, Dest.node m) =>
      match invokeAux g fuel m s2 with
      | Except.error e => Except.error e
      | Except.ok (sfin, path) => Except.ok (sfin, n :: path)

/-- Modelled from the spec: the configurable maximum step count, spec 4.5
default of 10,000. -/
def stepLimit : Nat := 10000

/-- Modelled from the spec: `invoke(graph, initialState) -> finalState`
(spec 4.5), the sole run entry point, starting at the entry node with the
full step budget. -/
def invoke (g : CompiledGraph) (s : ExchangeState) :
    Except RunError (ExchangeState × List Node) :=
  invokeAux g stepLimit g.entry s

/-- The label-to-destination mapping of the conditional edge added on
`determine_modality` (source lines 176-184). -/
def exchangeLabelMap : List (String × Dest) :=
  [("advance_payment", Dest.node Node.extract_advance_payment_info),
   ("declaration_import", Dest.node Node.extract_declaration_import_info),
   ("services", Dest.node Node.extract_services_info)]

/-- The graph built by `build_exchange_graph` (source lines 156-192): entry
point `extract_file_content`, the linear edges of lines 172-173, the
conditional edge of lines 176-184 and the three edges to `END` of
lines 187-189. -/
def exchangeGraph : CompiledGraph where
  entry := Node.extract_file_content
  edges := fun n =>
    match n with
    | Node.extract_file_content => some (Outgoing.edge (Dest.node Node.extract_bank_channels))
    | Node.extract_bank_channels => some (Outgoing.edge (Dest.node Node.determine_modality))
    | Node.determine_modality => some (Outgoing.conditional modality_condition exchangeLabelMap)
    | Node.extract_advance_payment_info => some (Outgoing.edge Dest.END)
    | Node.extract_declaration_import_info => some (Outgoing.edge Dest.END)
    | Node.extract_services_info => some (Outgoing.edge Dest.END)

/-- The final state `invoke` produces on the exchange graph from an initial
state `s`: all three extracted fields filled in, `file_text` untouched. -/
def exchangeFinal (s : ExchangeState) : ExchangeState :=
  { file_text := s.file_text
    bank_channels_info := some bankChannelsResult
    modality := some "advance payment"
    additional_info := some [("expected_shipment_date", "2025-04-15")] }

/-- Lookup of a key in an `additional_info` dict; `none` when the dict itself
is `None`. -/
def infoLookup (key : String) : Option (List (String × String)) → Option String
  | none => none
  | some [] => none
  | some ((k, v) :: rest) => if k = key then some v else infoLookup key (some rest)

/-- A state whose modality string matches none of the three routing
substrings, so `modality_condition` falls through to the `"unknown"` label. -/
def unknownModalityState : ExchangeState :=
  { file_text := ""
    bank_channels_info := none
    modality := some "gift"
    additional_info := none }

theorem merge_fullUpdate (s r : ExchangeState) : merge s (fullUpdate r) = r := by
  simp [merge, fullUpdate]

theorem modality_condition_advance (s : ExchangeState)
    (h : s.modality = some "advance payment") :
    modality_condition s = Except.ok "advance_payment" := by
  have hin : pyIn "advance payment" (pyLower "advance payment") = true := by decide
  simp [modality_condition, h, hin]

theorem exchange_run (fuel : Nat) (s : ExchangeState) :
    invokeAux exchangeGraph (fuel + 4) Node.extract_file_content s =
      Except.ok (exchangeFinal s,
        [Node.extract_file_content, Node.extract_bank_channels,
         Node.determine_modality, Node.extract_advance_payment_info]) := by
  have hin : pyIn "advance payment" (pyLower "advance payment") = true := by decide
  simp [invokeAux, stepOnce, exchangeGraph, runNode, extract_file_content,
    extract_bank_channels, determine_modality, extract_advance_payment_info,
    resolveConditional, modality_condition, hin, exchangeLabelMap, lookupLabel,
    exchangeFinal, merge, fullUpdate]

theorem invokeAux_length_le (g : CompiledGraph) :
    ∀ (fuel : Nat) (n : Node) (s sfin : ExchangeState) (path : List Node),
      invokeAux g fuel n s = Except.ok (sfin, path) → path.length ≤ fuel := by
  intro fuel
  induction fuel with
  | zero =>
    intro n s sfin path h
    simp [invokeAux] at h
  | succ fuel ih =>
    intro n s sfin path h
    rw [invokeAux] at h
    cases hstep : stepOnce g n s with
    | error e => rw [hstep] at h; exact absurd h (by simp)
    | ok p =>
      obtain ⟨s2, d⟩ := p
      rw [hstep] at h
      cases d with
      | END =>
        simp at h
        rw [← h.2]
        simp
      | node m =>
        simp only [] at h
        cases hrec : invokeAux g fuel m s2 with
        | error e => rw [hrec] at h; exact absurd h (by simp)
        | ok q =>
          obtain ⟨sq, pathq⟩ := q
          rw [hrec] at h
          simp at h
          have hle := ih m s2 sq pathq hrec
          rw [← h.2]
          simpa using Nat.succ_le_succ hle

theorem invoke_exchange (s : ExchangeState) :
    invoke exchangeGraph s =
      Except.ok (exchangeFinal s,
        [Node.extract_file_content, Node.extract_bank_channels,
         Node.determine_modality, Node.extract_advance_payment_info]) := by
  have h : stepLimit = 9996 + 4 := rfl
  rw [invoke, h]
  exact exchange_run 9996 s

/-- C1: on the graph built by `build_exchange_graph`, for every initial state
(`determine_modality` sets `modality = "advance payment"` for every
`file_text`), execution routes to the `extract_advance_payment_info` node and
the `additional_info` field of the final state carries
`expected_shipment_date = "2025-04-15"`. -/
theorem advance_payment_route_end_to_end (s : ExchangeState) :
    ∃ (sfin : ExchangeState) (path : List Node),
      invoke exchangeGraph s = Except.ok (sfin, path) ∧
      Node.extract_advance_payment_info ∈ path ∧
      infoLookup "expected_shipment_date" sfin.additional_info = some "2025-04-15" := by
  refine ⟨exchangeFinal s, _, invoke_exchange s, ?_, ?_⟩
  · simp
  · simp [exchangeFinal, infoLookup]

/-- C2: whenever the decision function of the conditional edge returns a label
with no entry in the label-to-destination mapping (in this program,
`modality_condition` returning `"unknown"`), edge resolution — and with it the
run — ends in `UnroutableBranchError`, never a silent default. -/
theorem unroutable_label_is_error (s : ExchangeState) (label : String)
    (h1 : modality_condition s = Except.ok label)
    (h2 : lookupLabel label exchangeLabelMap = none) :
    resolveConditional modality_condition exchangeLabelMap s =
      Except.error (RunError.unroutableBranchError label) := by
  simp [resolveConditional, h1, h2]

/-- Witness for C2: a state with modality `"gift"` makes `modality_condition`
return the unmapped label `"unknown"`, and resolution errors. -/
theorem unroutable_label_is_error_witness :
    modality_condition unknownModalityState = Except.ok "unknown" ∧
    lookupLabel "unknown" exchangeLabelMap = none ∧
    resolveConditional modality_condition exchangeLabelMap unknownModalityState =
      Except.error (RunError.unroutableBranchError "unknown") :=
  ⟨rfl, rfl, unroutable_label_is_error unknownModalityState "unknown" rfl rfl⟩

/-- C3 (refuting the claim on the code): `extract_bank_channels` mutates the
state object it is passed — after the call, the documented initial state
object no longer holds its original contents but the returned state with
`bank_channels_info` filled in. -/
theorem extract_bank_channels_mutates_input :
    inputAfterCall Node.extract_bank_channels initial_state ≠ initial_state ∧
    inputAfterCall Node.extract_bank_channels initial_state =
      { initial_state with bank_channels_info := some bankChannelsResult } := by
  constructor
  · intro h
    have hfield := congrArg ExchangeState.bank_channels_info h
    simp [inputAfterCall, runNode, extract_bank_channels, initial_state] at hfield
  · rfl

/-- C4 (refuting the claim on the code): every node body ends in
`return state`, so the returned mapping carries all four declared state keys,
not only the fields the node assigns; `determine_modality` assigns only
`modality`, and `extract_file_content` assigns nothing at all, yet both return
the full state. -/
theorem nodes_return_full_state_not_partial :
    returnedKeys Node.determine_modality ≠ writtenFields Node.determine_modality ∧
    returnedKeys Node.extract_file_content ≠ writtenFields Node.extract_file_content ∧
    (∀ n : Node, returnedKeys n = stateKeys) := by
  refine ⟨by decide, by decide, fun n => rfl⟩

/-- C5: the conditional edge on `determine_modality` evaluates its decision
function on the post-merge state: for every initial state — whatever its
`modality` field held before, including `None` — `modality_condition` observes
the `"advance payment"` value the node just wrote and the Executor routes to
`extract_advance_payment_info`. -/
theorem decision_uses_post_merge_state (s : ExchangeState) :
    modality_condition (merge s (fullUpdate (runNode Node.determine_modality s))) =
      Except.ok "advance_payment" ∧
    stepOnce exchangeGraph Node.determine_modality s =
      Except.ok (merge s (fullUpdate (runNode Node.determine_modality s)),
        Dest.node Node.extract_advance_payment_info) := by
  have hm : (merge s (fullUpdate (runNode Node.determine_modality s))).modality =
      some "advance payment" := by
    simp [merge, fullUpdate, runNode, determine_modality]
  have h1 := modality_condition_advance _ hm
  refine ⟨h1, ?_⟩
  simp [stepOnce, exchangeGraph, resolveConditional, h1, exchangeLabelMap, lookupLabel]

/-- C6: for every compiled graph and initial state, `invoke` either returns
after at most `stepLimit` transitions or ends in an error (`invokeAux` raises
`StepLimitExceededError` exactly when the step budget runs out); the acyclic
exchange graph in particular terminates successfully in four transitions for
every initial state. -/
theorem invoke_step_bounded_and_exchange_terminates :
    (∀ (g : CompiledGraph) (s : ExchangeState),
        (∃ (sfin : ExchangeState) (path : List Node),
            invoke g s = Except.ok (sfin, path) ∧ path.length ≤ stepLimit) ∨
        (∃ e : RunError, invoke g s = Except.error e)) ∧
    (∀ s : ExchangeState, ∃ (sfin : ExchangeState) (path : List Node),
        invoke exchangeGraph s = Except.ok (sfin, path) ∧ path.length = 4) := by
  constructor
  · intro g s
    cases hres : invoke g s with
    | error e => exact Or.inr ⟨e, rfl⟩
    | ok p =>
      obtain ⟨sfin, path⟩ := p
      exact Or.inl ⟨sfin, path, rfl,
        invokeAux_length_le g stepLimit g.entry s sfin path hres⟩
  · intro s
    exact ⟨exchangeFinal s, _, invoke_exchange s, rfl⟩

/-- C7: `invoke` is deterministic — every step and decision function of this
program is a pure function of the state, so two invocations of the same
compiled graph on equal initial states return equal results. -/
theorem invoke_deterministic (g : CompiledGraph) (s1 s2 : ExchangeState)
    (h : s1 = s2) : invoke g s1 = invoke g s2 := by
  rw [h]

/-- Witness for C7: two invocations on the documented initial state agree. -/
theorem invoke_deterministic_witness :
    initial_state = initial_state ∧
    invoke exchangeGraph initial_state = invoke exchangeGraph initial_state :=
  ⟨rfl, invoke_deterministic exchangeGraph initial_state initial_state rfl⟩

/-- C8: `modality_condition` is partial over the declared state type — on
every state whose `modality` key holds `None` (as in the documented initial
state) the expression `state.get("modality", "").lower()` raises
`AttributeError`, because `dict.get` returns the stored `None` rather than the
`""` default; on every state whose `modality` is a string the condition
returns a label. -/
theorem modality_condition_none_raises :
    (∀ s : ExchangeState, s.modality = none →
        modality_condition s = Except.error PyErr.attributeError) ∧
    (∀ (s : ExchangeState) (m : String), s.modality = some m →
        ∃ label : String, modality_condition s = Except.ok label) := by
  constructor
  · intro s h
    simp [modality_condition, h]
  · intro s m h
    simp only [modality_condition, h]
    by_cases h1 : pyIn "advance payment" (pyLower m) = true
    · exact ⟨"advance_payment", by simp [h1]⟩
    · by_cases h2 : pyIn "import already arrived" (pyLower m) = true
      · exact ⟨"declaration_import", by simp [h1, h2]⟩
      · by_cases h3 : pyIn "service" (pyLower m) = true
        · exact ⟨"services", by simp [h1, h2, h3]⟩
        · exact ⟨"unknown", by simp [h1, h2, h3]⟩

/-- Witness for C8: the documented initial state stores `modality = None` and
`modality_condition` raises `AttributeError` on it. -/
theorem modality_condition_none_raises_witness :
    initial_state.modality = none ∧
    modality_condition initial_state = Except.error PyErr.attributeError :=
  ⟨rfl, modality_condition_none_raises.1 initial_state rfl⟩

/-- C9: `extract_file_content` is the identity on states — it returns exactly
its input, changing no field. -/
theorem extract_file_content_is_identity (s : ExchangeState) :
    extract_file_content s = s :=
  rfl

/-- C10: each of the three modality-specific extraction nodes writes only
`additional_info` — for every input state, `file_text`, `bank_channels_info`
and `modality` of the result equal those of the input. -/
theorem extraction_nodes_write_only_additional_info (s : ExchangeState) :
    ((extract_advance_payment_info s).file_text = s.file_text ∧
     (extract_advance_payment_info s).bank_channels_info = s.bank_channels_info ∧
     (extract_advance_payment_info s).modality = s.modality) ∧
    ((extract_declaration_import_info s).file_text = s.file_text ∧
     (extract_declaration_import_info s).bank_channels_info = s.bank_channels_info ∧
     (extract_declaration_import_info s).modality = s.modality) ∧
    ((extract_services_info s).file_text = s.file_text ∧
     (extract_services_info s).bank_channels_info = s.bank_channels_info ∧
     (extract_services_info s).modality = s.modality) :=
  ⟨⟨rfl, rfl, rfl⟩, ⟨rfl, rfl, rfl⟩, ⟨rfl, rfl, rfl⟩⟩
